import Mathlib

/-!
Verification of the album CRUD service (`src/main.go`).

The service exposes three HTTP operations: `POST /albums` (`createAlbum`),
`GET /albums/:id` (`getAlbum`) and `GET /health`.  We embed the handlers as
pure Lean functions over an explicit in-memory database state mirroring the
`Albums` MySQL table (auto-increment primary key starting at 1), and model
the HTTP layer's inputs (a parsed multipart request, a path parameter
string, an environment lookup) explicitly.  JSON response bodies are flat
objects, modelled as association lists of scalar values.
-/

/-- A JSON scalar value as used by the service's response bodies:
a string, an integer, or a byte blob (which `encoding/json` renders as a
base64 string; we keep the bytes so that byte-identity is expressible). -/
inductive JVal where
  | s (v : String)
  | i (v : Int)
  | b (v : List Nat)
  deriving DecidableEq, Repr

/-- A flat JSON object: an ordered list of field-name/value pairs.  Every
body the service produces is such an object. -/
abbrev JObj := List (String × JVal)

/-- An HTTP response: status code and JSON body. -/
abbrev HttpResp := Nat × JObj

/-- The body `gin.H` with a single `error` key, as produced by every error
path of the handlers. -/
def errJson (msg : String) : JObj := [("error", JVal.s msg)]

/-- The `Album` struct of `main.go` (field `ID` is the database-assigned
primary key; `Image` is the raw blob, here a list of bytes). -/
structure Album where
  id : Int
  artist : String
  title : String
  year : Int
  image : List Nat
  deriving DecidableEq, Repr

/-- The persisted state of the `Albums` table: the rows plus the next
auto-increment id.  MySQL's `AUTO_INCREMENT` starts at 1 and assigns
`nextId` to the next inserted row. -/
structure DBState where
  rows : List Album
  nextId : Int
  deriving DecidableEq, Repr

/-- The empty table right after `CREATE TABLE`: no rows, next id 1. -/
def emptyDB : DBState := { rows := [], nextId := 1 }

/-- Outcome of the `image` form-file part of a creation request, covering
the three fallible steps of `createAlbum`: `c.FormFile("image")` (missing
part), `file.Open()` (open failure), `io.ReadAll` (read failure), or a
successfully readable payload. -/
inductive FilePart where
  | missing
  | unreadableOpen
  | unreadableRead
  | readable (data : List Nat)
  deriving DecidableEq, Repr

/-- A creation request as `createAlbum` observes it: whether the multipart
body is syntactically well formed, its total size in bytes, the three text
form values (`c.Request.FormValue` yields `""` for a missing field), and
the `image` file part. -/
structure CreateRequest where
  wellFormed : Bool
  totalSize : Nat
  artist : String
  title : String
  yearStr : String
  image : FilePart
  deriving DecidableEq, Repr

/-- The 10 MiB ceiling passed to `ParseMultipartForm` (`10 << 20`). -/
def maxMultipartBytes : Nat := 10485760

/-- Modelled from the spec: the behaviour of
`c.Request.ParseMultipartForm(10 << 20)` (net/http, not part of this
repository's sources).  Per the spec, parsing succeeds iff the body is a
well-formed multipart form and its total size does not exceed the 10 MiB
ceiling. -/
def parseOk (req : CreateRequest) : Bool :=
  req.wellFormed && decide (req.totalSize ≤ maxMultipartBytes)

/-- Accumulate decimal digits; fails on a non-digit character.  Mirrors the
digit loop of Go's `strconv.ParseInt` for base 10. -/
def parseDigitsAux : List Char → Nat → Option Nat
  | [], acc => some acc
  | c :: cs, acc =>
      if c.isDigit then parseDigitsAux cs (10 * acc + (c.toNat - 48))
      else none

/-- Parse a non-empty run of decimal digits; `none` on an empty list or any
non-digit. -/
def parseDigits : List Char → Option Nat
  | [] => none
  | cs => parseDigitsAux cs 0

/-- Go's 64-bit `int` lower bound, `-2^63`. -/
def goIntMin : Int := -9223372036854775808

/-- Go's 64-bit `int` upper bound, `2^63 - 1`. -/
def goIntMax : Int := 9223372036854775807

/-- Go's `strconv.Atoi`: optional single leading `+` or `-` sign followed
by at least one decimal digit, rejecting anything else and any value out of
the 64-bit `int` range (`ErrRange` also yields a non-nil error). -/
def atoi (str : String) : Option Int :=
  let cs := str.data
  let signed : Bool × List Char :=
    match cs with
    | '-' :: rest => (true, rest)
    | '+' :: rest => (false, rest)
    | _ => (false, cs)
  match parseDigits signed.2 with
  | none => none
  | some n =>
      let v : Int := if signed.1 then -(n : Int) else (n : Int)
      if v < goIntMin ∨ goIntMax < v then none else some v

/-- `json.Marshal` of an `Album` per the struct tags of `main.go`:
`id,omitempty` (dropped when 0), `artist`, `title`, `year`,
`image,omitempty` (dropped when nil/empty). -/
def albumToJson (a : Album) : JObj :=
  (if a.id = 0 then [] else [("id", JVal.i a.id)]) ++
  [("artist", JVal.s a.artist), ("title", JVal.s a.title),
   ("year", JVal.i a.year)] ++
  (if a.image = [] then [] else [("image", JVal.b a.image)])

/-- The field names present in a JSON object body. -/
def jsonKeys (body : JObj) : List String := body.map Prod.fst

/-- The `createAlbum` handler (`main.go` lines 66-125), returning the HTTP
response together with the resulting database state.  The database insert
is modelled as always succeeding (the 500 paths for `db.Exec` and
`LastInsertId` failures concern an unreachable backend, outside this
model): the row is appended with id `nextId` and the counter advances. -/
def createAlbum (req : CreateRequest) (db : DBState) : HttpResp × DBState :=
  if parseOk req = false then
    ((400, errJson "Invalid form data"), db)
  else if req.artist = "" ∨ req.title = "" ∨ req.yearStr = "" then
    ((400, errJson "Artist, title, and year are required"), db)
  else
    match atoi req.yearStr with
    | none => ((400, errJson "Year must be a positive integer"), db)
    | some year =>
        if year ≤ 0 then
          ((400, errJson "Year must be a positive integer"), db)
        else
          match req.image with
          | FilePart.missing => ((400, errJson "Image is required"), db)
          | FilePart.unreadableOpen =>
              ((500, errJson "Failed to process image file"), db)
          | FilePart.unreadableRead =>
              ((500, errJson "Failed to read image file"), db)
          | FilePart.readable data =>
              ((201, [("AlbumID", JVal.i db.nextId)]),
               { rows := db.rows ++
                   [{ id := db.nextId, artist := req.artist,
                      title := req.title, year := year, image := data }],
                 nextId := db.nextId + 1 })

/-- The point lookup `SELECT ... WHERE id = ?` of `getAlbum`: the first row
whose id matches, `none` playing the role of `sql.ErrNoRows`. -/
def findAlbum (rows : List Album) (i : Int) : Option Album :=
  rows.find? (fun a => a.id == i)

/-- The `getAlbum` handler (`main.go` lines 128-147): parse the `:id` path
parameter with `strconv.Atoi` (400 on failure), look the row up (404 when
absent), otherwise serialize the album as JSON with status 200. -/
def getAlbum (idParam : String) (db : DBState) : HttpResp :=
  match atoi idParam with
  | none => (400, errJson "Invalid album ID")
  | some albumID =>
      match findAlbum db.rows albumID with
      | none => (404, errJson "Album not found")
      | some album => (200, albumToJson album)

/-- The `GET /health` handler (`main.go` lines 157-159).  The closure in
the source ignores the database entirely; we give the model the database
state as an argument precisely to prove that the response never depends on
it. -/
def healthHandler (_db : DBState) : HttpResp :=
  (200, [("status", JVal.s "ok")])

/-- Outcome of process startup: either a fatal exit before any listener is
bound, or a server listening on a port. -/
inductive StartupOutcome where
  | fatalNoDsn
  | listening (port : String)
  deriving DecidableEq, Repr

/-- The port selection of `main` (`main.go` lines 166-169): `PORT` from the
environment when set, `"8080"` otherwise.  `os.Getenv` yields `""` for an
unset variable. -/
def listenPort (env : String → String) : String :=
  let port := env "PORT"
  if port = "" then "8080" else port

/-- The startup sequence of `main`/`initDB` restricted to its
environment-driven part: `initDB` calls `log.Fatal` when `DB_DSN` is unset
(`main.go` lines 29-32), before any route is bound; otherwise (with a
reachable database, whose connection failures are outside this model) the
server listens on `listenPort`. -/
def startup (env : String → String) : StartupOutcome :=
  if env "DB_DSN" = "" then StartupOutcome.fatalNoDsn
  else StartupOutcome.listening (listenPort env)

/-- The database invariant maintained by the service: the auto-increment
counter is at least 1 and every row's id is positive and below the
counter. -/
def DBinv (db : DBState) : Prop :=
  1 ≤ db.nextId ∧ ∀ a ∈ db.rows, 1 ≤ a.id ∧ a.id < db.nextId

/-- `strconv.Atoi` rejects the empty string. -/
theorem atoi_empty : atoi "" = none := rfl

/-- A find over rows none of which carries the sought id yields `none`. -/
theorem findAlbum_none (rows : List Album) (i : Int)
    (h : ∀ a ∈ rows, a.id ≠ i) : findAlbum rows i = none := by
  induction rows with
  | nil => rfl
  | cons a as ih =>
      have ha : (a.id == i) = false := by
        simpa using h a (List.mem_cons_self a as)
      simp only [findAlbum, List.find?] at *
      rw [ha]
      exact ih fun b hb => h b (List.mem_cons_of_mem a hb)

/-- After appending a fresh row whose id no earlier row carries, the lookup
for that id finds exactly the new row. -/
theorem findAlbum_append_fresh (rows : List Album) (a : Album)
    (h : ∀ b ∈ rows, b.id ≠ a.id) :
    findAlbum (rows ++ [a]) a.id = some a := by
  induction rows with
  | nil => simp [findAlbum, List.find?]
  | cons b bs ih =>
      have hb : (b.id == a.id) = false := by
        simpa using h b (List.mem_cons_self b bs)
      simp only [findAlbum, List.cons_append, List.find?] at *
      rw [hb]
      exact ih fun c hc => h c (List.mem_cons_of_mem b hc)

/-- Case analysis on `createAlbum`: either it rejects the request, leaving
the database untouched and answering a non-201 status, or every validation
passed and it appends exactly one row built from the request with id
`nextId`. -/
theorem createAlbum_cases (req : CreateRequest) (db : DBState) :
    ((createAlbum req db).2 = db ∧ (createAlbum req db).1.1 ≠ 201) ∨
    (∃ year data,
      atoi req.yearStr = some year ∧ 0 < year ∧
      req.image = FilePart.readable data ∧
      req.artist ≠ "" ∧ req.title ≠ "" ∧ parseOk req = true ∧
      createAlbum req db =
        ((201, [("AlbumID", JVal.i db.nextId)]),
         { rows := db.rows ++
             [{ id := db.nextId, artist := req.artist, title := req.title,
                year := year, image := data }],
           nextId := db.nextId + 1 })) := by
  unfold createAlbum
  split
  · exact Or.inl ⟨rfl, by simp⟩
  · next hparse =>
    split
    · exact Or.inl ⟨rfl, by simp⟩
    · next hfields =>
      push_neg at hfields
      obtain ⟨ha, ht, hy⟩ := hfields
      rcases hatoi : atoi req.yearStr with _ | year
      · exact Or.inl ⟨rfl, by simp⟩
      · dsimp only
        split
        · exact Or.inl ⟨rfl, by simp⟩
        · next hpos =>
          push_neg at hpos
          rcases himg : req.image with _ | _ | _ | data
          · exact Or.inl ⟨rfl, by simp⟩
          · exact Or.inl ⟨rfl, by simp⟩
          · exact Or.inl ⟨rfl, by simp⟩
          · refine Or.inr ⟨year, data, rfl, hpos, rfl, ha, ht, ?_, rfl⟩
            cases hpq : parseOk req with
            | false => exact absurd hpq hparse
            | true => rfl

/-- When every validation passes, `createAlbum` answers 201 with the
assigned id and appends exactly the row built from the request. -/
theorem createAlbum_success_eq (req : CreateRequest) (db : DBState)
    (y : Int) (data : List Nat)
    (hp : parseOk req = true) (ha : req.artist ≠ "") (ht : req.title ≠ "")
    (hy : atoi req.yearStr = some y) (hpos : 0 < y)
    (himg : req.image = FilePart.readable data) :
    createAlbum req db =
      ((201, [("AlbumID", JVal.i db.nextId)]),
       { rows := db.rows ++
           [{ id := db.nextId, artist := req.artist, title := req.title,
              year := y, image := data }],
         nextId := db.nextId + 1 }) := by
  have hys : req.yearStr ≠ "" := by
    intro e
    rw [e] at hy
    simp [atoi, parseDigits] at hy
  unfold createAlbum
  rw [hp, hy, himg]
  simp [ha, ht, hys, show ¬ y ≤ 0 from by omega]

/-- Looking up the id just assigned in the state right after the insert
finds the inserted row, provided the pre-state satisfied the id
invariant. -/
theorem getAlbum_after_insert (db : DBState) (row : Album) (s : String)
    (hid : row.id = db.nextId) (hinv : DBinv db)
    (hs : atoi s = some db.nextId) :
    getAlbum s { rows := db.rows ++ [row], nextId := db.nextId + 1 } =
      (200, albumToJson row) := by
  have hfind : findAlbum (db.rows ++ [row]) db.nextId = some row := by
    rw [← hid]
    refine findAlbum_append_fresh db.rows row fun b hb => ?_
    have := hinv.2 b hb
    rw [hid]
    omega
  unfold getAlbum
  rw [hs]
  dsimp only
  rw [hfind]

/-- The empty table satisfies the id invariant. -/
theorem emptyDB_inv : DBinv emptyDB := by
  refine ⟨by norm_num [emptyDB], ?_⟩
  intro a ha
  simp [emptyDB] at ha

/-- A sample persisted row used in concrete instantiations. -/
def albumOne : Album :=
  { id := 1, artist := "a", title := "t", year := 2001, image := [9] }

/-- A sample database holding exactly `albumOne`. -/
def dbOne : DBState := { rows := [albumOne], nextId := 2 }

/-- The sample database satisfies the id invariant. -/
theorem dbOne_inv : DBinv dbOne := by
  refine ⟨by norm_num [dbOne], ?_⟩
  intro a ha
  simp [dbOne] at ha
  subst ha
  decide

/-- C1: for every creation request with non-empty artist, non-empty title,
a year string parsing as a positive integer, and a readable image payload
within the 10 MiB form ceiling, `createAlbum` responds 201 carrying the
positive assigned id, and a subsequent `getAlbum` on that id responds 200
with exactly the same artist, title and year and a byte-identical image
(the image field present in the JSON body whenever the payload is
non-empty). -/
theorem create_then_get_roundtrip (req : CreateRequest) (db : DBState)
    (y : Int) (data : List Nat) (s : String)
    (hp : parseOk req = true) (ha : req.artist ≠ "") (ht : req.title ≠ "")
    (hy : atoi req.yearStr = some y) (hpos : 0 < y)
    (himg : req.image = FilePart.readable data)
    (hinv : DBinv db) (hs : atoi s = some db.nextId) :
    (createAlbum req db).1 = (201, [("AlbumID", JVal.i db.nextId)]) ∧
    0 < db.nextId ∧
    getAlbum s (createAlbum req db).2 =
      (200, albumToJson { id := db.nextId, artist := req.artist,
                          title := req.title, year := y, image := data }) ∧
    (data ≠ [] →
      ("image", JVal.b data) ∈
        albumToJson { id := db.nextId, artist := req.artist,
                      title := req.title, year := y, image := data }) := by
  have hcr := createAlbum_success_eq req db y data hp ha ht hy hpos himg
  refine ⟨by rw [hcr], hinv.1, ?_, ?_⟩
  · rw [hcr]
    exact getAlbum_after_insert db _ s rfl hinv hs
  · intro hne
    simp [albumToJson, hne]

/-- Witness for C1 at the spec's concrete scenario (artist Radiohead,
title OK Computer, year 1997, a 3-byte image, empty table). -/
def reqGood : CreateRequest :=
  { wellFormed := true, totalSize := 17, artist := "Radiohead",
    title := "OK Computer", yearStr := "1997",
    image := FilePart.readable [3, 1, 4] }

theorem create_then_get_roundtrip_witness :
    (createAlbum reqGood emptyDB).1 = (201, [("AlbumID", JVal.i 1)]) ∧
    0 < (1 : Int) ∧
    getAlbum "1" (createAlbum reqGood emptyDB).2 =
      (200, albumToJson { id := 1, artist := "Radiohead",
                          title := "OK Computer", year := 1997,
                          image := [3, 1, 4] }) ∧
    ([3, 1, 4] ≠ ([] : List Nat) →
      ("image", JVal.b [3, 1, 4]) ∈
        albumToJson { id := 1, artist := "Radiohead",
                      title := "OK Computer", year := 1997,
                      image := [3, 1, 4] }) :=
  create_then_get_roundtrip reqGood emptyDB 1997 [3, 1, 4] "1"
    (by decide) (by decide) (by decide) (by decide) (by decide) rfl
    emptyDB_inv (by decide)

/-- C2: a creation request with a missing (empty) artist, title or year
form value, or whose year string fails to parse as an integer or parses to
a non-positive one, is answered 400 and leaves the database untouched: no
row is persisted and no id is allocated. -/
theorem invalid_fields_reject (req : CreateRequest) (db : DBState)
    (h : req.artist = "" ∨ req.title = "" ∨ req.yearStr = "" ∨
         atoi req.yearStr = none ∨
         ∃ y, atoi req.yearStr = some y ∧ y ≤ 0) :
    (createAlbum req db).1.1 = 400 ∧ (createAlbum req db).2 = db := by
  unfold createAlbum
  split
  · exact ⟨rfl, rfl⟩
  · split
    · exact ⟨rfl, rfl⟩
    · next hfields =>
      push_neg at hfields
      rcases hatoi : atoi req.yearStr with _ | y
      · exact ⟨rfl, rfl⟩
      · dsimp only
        split
        · exact ⟨rfl, rfl⟩
        · next hpos =>
          exfalso
          rcases h with h1 | h2 | h3 | h4 | ⟨y2, hy2, hneg⟩
          · exact hfields.1 h1
          · exact hfields.2.1 h2
          · exact hfields.2.2 h3
          · rw [hatoi] at h4
            exact Option.noConfusion h4
          · rw [hatoi] at hy2
            injection hy2 with hyy
            omega

/-- Witness for C2: a request with an empty artist against the sample
database is rejected with 400 and the database is unchanged. -/
def reqNoArtist : CreateRequest :=
  { wellFormed := true, totalSize := 30, artist := "", title := "t",
    yearStr := "1999", image := FilePart.readable [1] }

theorem invalid_fields_reject_witness :
    (createAlbum reqNoArtist dbOne).1.1 = 400 ∧
    (createAlbum reqNoArtist dbOne).2 = dbOne :=
  invalid_fields_reject reqNoArtist dbOne (Or.inl rfl)

/-- C3: a creation request whose multipart body fails to parse — it is
malformed or its total size exceeds the 10 MiB ceiling — is answered 400
with the form-data error body and no row is persisted. -/
theorem malformed_form_rejects (req : CreateRequest) (db : DBState)
    (h : req.wellFormed = false ∨ maxMultipartBytes < req.totalSize) :
    createAlbum req db = ((400, errJson "Invalid form data"), db) := by
  have hp : parseOk req = false := by
    rcases h with h | h
    · simp [parseOk, h]
    · simp [parseOk, Nat.not_le.mpr h]
  unfold createAlbum
  rw [hp]
  simp

/-- Witness for C3: an 11 MiB request is rejected with 400 and the sample
database is unchanged. -/
def reqTooBig : CreateRequest :=
  { wellFormed := true, totalSize := 11534336, artist := "a", title := "t",
    yearStr := "2000", image := FilePart.readable [1] }

theorem malformed_form_rejects_witness :
    createAlbum reqTooBig dbOne = ((400, errJson "Invalid form data"), dbOne) :=
  malformed_form_rejects reqTooBig dbOne (Or.inr (by decide))

/-- Counterexample to C4 as stated: a request with valid text fields whose
image part is present but fails to open is answered 500, not a client
error 400. -/
def reqBadOpen : CreateRequest :=
  { wellFormed := true, totalSize := 40, artist := "a", title := "t",
    yearStr := "2020", image := FilePart.unreadableOpen }

theorem unreadable_image_not_400 :
    (createAlbum reqBadOpen emptyDB).1.1 = 500 ∧
    ¬ (createAlbum reqBadOpen emptyDB).1.1 = 400 := by
  decide

/-- C4 (amended): a missing image part is answered 400 naming the image
field and no row is persisted; an image part that is present but cannot be
opened or read is answered 500 (a server error, not a client error), and
in that case too no row is persisted. -/
theorem image_failure_responses (req : CreateRequest) (db : DBState)
    (hp : parseOk req = true) (ha : req.artist ≠ "") (ht : req.title ≠ "")
    (hy : ∃ y, atoi req.yearStr = some y ∧ 0 < y) :
    (req.image = FilePart.missing →
      createAlbum req db = ((400, errJson "Image is required"), db)) ∧
    (req.image = FilePart.unreadableOpen →
      createAlbum req db = ((500, errJson "Failed to process image file"), db)) ∧
    (req.image = FilePart.unreadableRead →
      createAlbum req db = ((500, errJson "Failed to read image file"), db)) := by
  obtain ⟨y, hy, hpos⟩ := hy
  have hys : req.yearStr ≠ "" := by
    intro e
    rw [e] at hy
    simp [atoi, parseDigits] at hy
  refine ⟨?_, ?_, ?_⟩ <;> intro himg <;>
    · unfold createAlbum
      rw [hp, hy, himg]
      simp [ha, ht, hys, show ¬ y ≤ 0 from by omega]

/-- Witness for the amended C4 at concrete requests differing only in the
image part outcome. -/
def reqNoImage : CreateRequest :=
  { wellFormed := true, totalSize := 40, artist := "a", title := "t",
    yearStr := "2020", image := FilePart.missing }

theorem image_failure_responses_witness :
    (reqNoImage.image = FilePart.missing →
      createAlbum reqNoImage dbOne = ((400, errJson "Image is required"), dbOne)) ∧
    (reqNoImage.image = FilePart.unreadableOpen →
      createAlbum reqNoImage dbOne = ((500, errJson "Failed to process image file"), dbOne)) ∧
    (reqNoImage.image = FilePart.unreadableRead →
      createAlbum reqNoImage dbOne = ((500, errJson "Failed to read image file"), dbOne)) :=
  image_failure_responses reqNoImage dbOne (by decide) (by decide) (by decide)
    ⟨2020, by decide, by decide⟩

/-- Counterexample to C5 as stated: a creation request carrying a present
but zero-byte image is accepted with 201, and the persisted table then
contains a row whose image is empty — not every persisted row has a
non-empty image. -/
def reqEmptyImage : CreateRequest :=
  { wellFormed := true, totalSize := 25, artist := "a", title := "t",
    yearStr := "2020", image := FilePart.readable [] }

theorem empty_image_row_persisted :
    (createAlbum reqEmptyImage emptyDB).1.1 = 201 ∧
    ((createAlbum reqEmptyImage emptyDB).2.rows.all
      fun a => !a.image.isEmpty) = false := by
  decide

/-- C5 (amended): every row `createAlbum` adds to the table has a
non-empty artist, a non-empty title and a positive year; the image,
however, may be empty (a present zero-byte image part is accepted). -/
theorem persisted_rows_valid (req : CreateRequest) (db : DBState) (a : Album)
    (hmem : a ∈ (createAlbum req db).2.rows) :
    a ∈ db.rows ∨ (a.artist ≠ "" ∧ a.title ≠ "" ∧ 0 < a.year) := by
  rcases createAlbum_cases req db with ⟨hdb, _⟩ |
    ⟨y, d, hy, hpos, himg, ha, ht, hp, heq⟩
  · rw [hdb] at hmem
    exact Or.inl hmem
  · rw [heq] at hmem
    dsimp only at hmem
    rcases List.mem_append.mp hmem with hold | hnew
    · exact Or.inl hold
    · have := List.mem_singleton.mp hnew
      subst this
      exact Or.inr ⟨ha, ht, hpos⟩

/-- Witness for the amended C5: the row inserted by the valid concrete
request is either pre-existing or satisfies the field invariants. -/
theorem persisted_rows_valid_witness :
    { id := (1 : Int), artist := "Radiohead", title := "OK Computer",
      year := (1997 : Int), image := [3, 1, 4] } ∈ emptyDB.rows ∨
    ("Radiohead" ≠ "" ∧ "OK Computer" ≠ "" ∧ (0 : Int) < 1997) :=
  persisted_rows_valid reqGood emptyDB _ (by decide)

/-- C6: on `GET /albums/:id`, a non-integer id segment is answered 400; an
integer id matching no persisted row is answered 404 with the
album-not-found error body; a matching row is answered 200 with the full
album serialized as JSON, the binary image field present whenever the
stored image is non-empty. -/
theorem getAlbum_responses (s : String) (db : DBState) :
    (atoi s = none → getAlbum s db = (400, errJson "Invalid album ID")) ∧
    (∀ i, atoi s = some i → findAlbum db.rows i = none →
      getAlbum s db = (404, errJson "Album not found")) ∧
    (∀ i a, atoi s = some i → findAlbum db.rows i = some a →
      getAlbum s db = (200, albumToJson a) ∧
      (a.image ≠ [] → ("image", JVal.b a.image) ∈ albumToJson a)) := by
  refine ⟨?_, ?_, ?_⟩
  · intro h
    unfold getAlbum
    rw [h]
  · intro i hi hf
    unfold getAlbum
    rw [hi]
    dsimp only
    rw [hf]
  · intro i a hi hf
    constructor
    · unfold getAlbum
      rw [hi]
      dsimp only
      rw [hf]
    · intro hne
      simp [albumToJson, hne]

/-- Witness for C6: all three outcomes on the sample one-row database. -/
theorem getAlbum_responses_witness :
    getAlbum "abc" dbOne = (400, errJson "Invalid album ID") ∧
    getAlbum "7" dbOne = (404, errJson "Album not found") ∧
    getAlbum "1" dbOne = (200, albumToJson albumOne) :=
  ⟨(getAlbum_responses "abc" dbOne).1 (by decide),
   (getAlbum_responses "7" dbOne).2.1 7 (by decide) (by decide),
   ((getAlbum_responses "1" dbOne).2.2 1 albumOne (by decide) (by decide)).1⟩

/-- C7: `GET /health` always answers 200 with the fixed ok body, and the
response is independent of the database state — the handler never consults
the storage handle. -/
theorem health_always_ok (db : DBState) :
    healthHandler db = (200, [("status", JVal.s "ok")]) ∧
    ∀ db2, healthHandler db = healthHandler db2 :=
  ⟨rfl, fun _ => rfl⟩

/-- C8: startup exits fatally, before any listener is bound, when `DB_DSN`
is unset (empty); otherwise the server listens on the `PORT` environment
value when set and on the default `"8080"` when unset. -/
theorem startup_env_config (env : String → String) :
    (env "DB_DSN" = "" → startup env = StartupOutcome.fatalNoDsn) ∧
    (env "DB_DSN" ≠ "" → env "PORT" = "" →
      startup env = StartupOutcome.listening "8080") ∧
    (env "DB_DSN" ≠ "" → env "PORT" ≠ "" →
      startup env = StartupOutcome.listening (env "PORT")) := by
  refine ⟨?_, ?_, ?_⟩
  · intro h
    simp [startup, h]
  · intro h hport
    simp [startup, listenPort, h, hport]
  · intro h hport
    simp [startup, listenPort, h, hport]

/-- Witness for C8: concrete environments with `DB_DSN` unset, with only
`DB_DSN` set, and with both `DB_DSN` and `PORT` set. -/
def envDsnOnly : String → String :=
  fun n => if n = "DB_DSN" then "user:pw@tcp(dbhost)/albums" else ""

def envDsnPort : String → String :=
  fun n =>
    if n = "DB_DSN" then "user:pw@tcp(dbhost)/albums"
    else if n = "PORT" then "9090" else ""

theorem startup_env_config_witness :
    startup (fun _ => "") = StartupOutcome.fatalNoDsn ∧
    startup envDsnOnly = StartupOutcome.listening "8080" ∧
    startup envDsnPort = StartupOutcome.listening "9090" :=
  ⟨(startup_env_config (fun _ => "")).1 rfl,
   (startup_env_config envDsnOnly).2.1 (by decide) (by decide),
   (startup_env_config envDsnPort).2.2 (by decide) (by decide)⟩

/-- C9: an id segment parsing to a non-positive integer is not rejected
with 400: `strconv.Atoi` accepts it, the lookup proceeds, and — every
persisted id being positive — the response is 404 album-not-found. -/
theorem nonpositive_id_yields_404 (s : String) (z : Int) (db : DBState)
    (hz : atoi s = some z) (hnp : z ≤ 0) (hinv : DBinv db) :
    getAlbum s db = (404, errJson "Album not found") := by
  unfold getAlbum
  rw [hz]
  dsimp only
  rw [findAlbum_none db.rows z fun a ha => by have := hinv.2 a ha; omega]

/-- Witness for C9: `"-5"` and `"0"` both parse and both yield 404 on the
sample database. -/
theorem nonpositive_id_yields_404_witness :
    atoi "-5" = some (-5) ∧ atoi "0" = some 0 ∧
    getAlbum "-5" dbOne = (404, errJson "Album not found") ∧
    getAlbum "0" dbOne = (404, errJson "Album not found") :=
  ⟨by decide, by decide,
   nonpositive_id_yields_404 "-5" (-5) dbOne (by decide) (by decide) dbOne_inv,
   nonpositive_id_yields_404 "0" 0 dbOne (by decide) (by decide) dbOne_inv⟩

/-- C10: a creation request whose image part is present but zero bytes
long is accepted: `createAlbum` answers 201 and persists a row with an
empty image blob, and a subsequent `getAlbum` for that row answers 200
with a JSON body that omits the image field entirely (the omitempty tag
drops empty byte slices). -/
theorem empty_image_create_then_get (req : CreateRequest) (db : DBState)
    (y : Int) (s : String)
    (hp : parseOk req = true) (ha : req.artist ≠ "") (ht : req.title ≠ "")
    (hy : atoi req.yearStr = some y) (hpos : 0 < y)
    (himg : req.image = FilePart.readable [])
    (hinv : DBinv db) (hs : atoi s = some db.nextId) :
    (createAlbum req db).1.1 = 201 ∧
    (createAlbum req db).2.rows =
      db.rows ++ [{ id := db.nextId, artist := req.artist,
                    title := req.title, year := y, image := [] }] ∧
    getAlbum s (createAlbum req db).2 =
      (200, [("id", JVal.i db.nextId), ("artist", JVal.s req.artist),
             ("title", JVal.s req.title), ("year", JVal.i y)]) ∧
    "image" ∉ jsonKeys (getAlbum s (createAlbum req db).2).2 := by
  have hcr := createAlbum_success_eq req db y [] hp ha ht hy hpos himg
  have hbody :
      albumToJson { id := db.nextId, artist := req.artist,
                    title := req.title, year := y, image := ([] : List Nat) } =
        [("id", JVal.i db.nextId), ("artist", JVal.s req.artist),
         ("title", JVal.s req.title), ("year", JVal.i y)] := by
    have h1 := hinv.1
    simp [albumToJson, show (db.nextId : Int) ≠ 0 from by omega]
  have hget :
      getAlbum s (createAlbum req db).2 =
        (200, [("id", JVal.i db.nextId), ("artist", JVal.s req.artist),
               ("title", JVal.s req.title), ("year", JVal.i y)]) := by
    rw [hcr]
    rw [getAlbum_after_insert db _ s rfl hinv hs]
    rw [hbody]
  refine ⟨by rw [hcr], by rw [hcr], hget, ?_⟩
  rw [hget]
  simp [jsonKeys]

/-- Witness for C10: a zero-byte image on the empty table yields 201, a
persisted empty-image row, and a 200 lookup body with no image key. -/
theorem empty_image_create_then_get_witness :
    (createAlbum reqEmptyImage emptyDB).1.1 = 201 ∧
    (createAlbum reqEmptyImage emptyDB).2.rows =
      emptyDB.rows ++ [{ id := 1, artist := "a", title := "t",
                         year := 2020, image := [] }] ∧
    getAlbum "1" (createAlbum reqEmptyImage emptyDB).2 =
      (200, [("id", JVal.i 1), ("artist", JVal.s "a"),
             ("title", JVal.s "t"), ("year", JVal.i 2020)]) ∧
    "image" ∉ jsonKeys (getAlbum "1" (createAlbum reqEmptyImage emptyDB).2).2 :=
  empty_image_create_then_get reqEmptyImage emptyDB 2020 "1"
    (by decide) (by decide) (by decide) (by decide) (by decide) rfl
    emptyDB_inv (by decide)
